import Mathlib

/-!
Verification of the policy drift detection engine
(`src/drift_detector.py`, `src/intent_parser.py`, `src/explain.py`,
`src/main.py`, and the backend variant `backend/drift/detector.py`).

Python floats arising from the CSV/JSON inputs are modelled as rationals
(`ℚ`); dynamically typed cell values are `Value` (a number or a retained
text string); Python exceptions (TypeError, ZeroDivisionError, KeyError)
are modelled by the error side of `Except`.
-/

namespace PolicyDrift

/-- A Python exception kind raised by the engine. -/
inductive PyErr where
  | typeError : PyErr
  | zeroDivisionError : PyErr
  | keyError : String → PyErr
deriving DecidableEq, Repr

/-- A dynamically typed cell value: a parsed number, or text retained
when float parsing failed (`load_implementation_data`). -/
inductive Value where
  | num : ℚ → Value
  | str : String → Value
deriving DecidableEq, Repr

/-- An implementation record: a Python dict from field name to value. -/
abbrev Record := List (String × Value)

/-- `dict.get(k)`: `None` when absent. -/
def Record.get (r : Record) (k : String) : Option Value :=
  List.lookup k r

/-- `dict[k]`: raises `KeyError` when absent. -/
def Record.getItem (r : Record) (k : String) : Except PyErr Value :=
  match r.get k with
  | some v => .ok v
  | none => .error (.keyError k)

/-- A target-group criterion: either a `{min, max}` range dict or an
exact numeric scalar. -/
inductive Condition where
  | range : Option ℚ → Option ℚ → Condition
  | scalarNum : ℚ → Condition
deriving DecidableEq, Repr

/-- A target group of the policy intent. -/
structure TargetGroup where
  name : String
  criteria : List (String × Condition)
deriving DecidableEq, Repr

/-- A policy constraint.  `threshold` and `applies_to` are read with
`dict.get`, hence optional. -/
structure Constraint where
  ctype : String
  metric : String
  threshold : Option ℚ
  applies_to : Option String
deriving DecidableEq, Repr

/-- A tolerance band in `target_metrics`; `min`/`max` keys optional. -/
structure MetricDef where
  min : Option ℚ
  max : Option ℚ
deriving DecidableEq, Repr

abbrev TargetMetrics := List (String × MetricDef)

/-- `PolicyIntent` (src/intent_parser.py). -/
structure PolicyIntent where
  scheme_name : String
  target_groups : List TargetGroup
  constraints : List Constraint
  target_metrics : TargetMetrics
deriving DecidableEq, Repr

/-- Severity band produced by `calculate_severity`. -/
inductive Severity where
  | low : Severity
  | medium : Severity
  | high : Severity
deriving DecidableEq, Repr

/-- `DriftResult` (src/drift_detector.py). -/
structure DriftResult where
  drift_type : String
  district_id : Value
  district_name : Value
  constraint : Constraint
  actual_value : ℚ
  expected_threshold : ℚ
  month : Value
  severity : Severity
deriving DecidableEq, Repr

/-! ### Constraint evaluator (`check_metric_constraint`, identical in
`src/drift_detector.py` and `backend/drift/detector.py`)

Python `value < threshold` with a text value or a `None` threshold
raises `TypeError`; this is the `.error .typeError` branches. -/

/-- Fallback check against the `max` bound of a tolerance band. -/
def checkMetricMax (value : Value) (md : MetricDef) : Except PyErr (Bool × ℚ) :=
  match md.max with
  | some mx =>
    match value with
    | .num v => if v > mx then .ok (true, mx) else .ok (false, 0)
    | .str _ => .error .typeError
  | none => .ok (false, 0)

/-- `check_metric_constraint(value, constraint, target_metrics)`. -/
def check_metric_constraint (value : Value) (c : Constraint)
    (tm : TargetMetrics) : Except PyErr (Bool × ℚ) :=
  if c.ctype = "minimum_coverage" then
    match value, c.threshold with
    | .num v, some t => .ok (decide (v < t), t)
    | _, _ => .error .typeError
  else if c.ctype = "temporal_consistency" then
    match value, c.threshold with
    | .num v, some t => .ok (decide (v > t), t)
    | _, _ => .error .typeError
  else if c.ctype = "resource_allocation" then
    match value, c.threshold with
    | .num v, some t => .ok (decide (v < t), t)
    | _, _ => .error .typeError
  else
    match List.lookup c.metric tm with
    | some md =>
      match md.min with
      | some mn =>
        match value with
        | .num v => if v < mn then .ok (true, mn) else checkMetricMax value md
        | .str _ => .error .typeError
      | none => checkMetricMax value md
    | none => .ok (false, 0)

/-! ### Severity scorer (`calculate_severity`)

Python raises `ZeroDivisionError` when `threshold == 0`. -/

/-- The three-tier banding applied to the computed deviation. -/
def severityBand (deviation : ℚ) : Severity :=
  if deviation > 30 then .high
  else if deviation > 15 then .medium
  else .low

/-- The signed percentage deviation (well-defined for nonzero threshold). -/
def deviationOf (actual threshold : ℚ) (constraint_type : String) : ℚ :=
  if constraint_type = "minimum_coverage" ∨ constraint_type = "resource_allocation" then
    (threshold - actual) / threshold * 100
  else
    (actual - threshold) / threshold * 100

/-- `calculate_severity(actual, threshold, constraint_type)`. -/
def calculate_severity (actual threshold : ℚ) (constraint_type : String) :
    Except PyErr Severity :=
  if threshold = 0 then .error .zeroDivisionError
  else .ok (severityBand (deviationOf actual threshold constraint_type))

/-! ### Cohort classifier

Two variants exist.  `matches_target_group` in `src/intent_parser.py`
tests `"min" in conditions` / `"max" in conditions` directly, so a
numeric scalar condition raises `TypeError` (membership test on a
number).  The backend variant (`backend/drift/detector.py`) dispatches
on the condition's runtime type and compares numeric scalars with
`!=`. -/

/-- Second half of the range check: `value > conditions["max"]`,
`TypeError` on a text value. -/
def rangeMaxCheck (v : Value) (mx : Option ℚ) : Except PyErr Bool :=
  match mx with
  | some mM =>
    match v with
    | .num y => if y > mM then .ok false else .ok true
    | .str _ => .error .typeError
  | none => .ok true

/-- The shared range check: `value < conditions["min"]` then
`value > conditions["max"]`, `TypeError` on a text value. -/
def rangeCheck (v : Value) (mn mx : Option ℚ) : Except PyErr Bool :=
  match mn with
  | some m =>
    match v with
    | .num x => if x < m then .ok false else rangeMaxCheck v mx
    | .str _ => .error .typeError
  | none => rangeMaxCheck v mx

/-- `matches_target_group` (src/intent_parser.py), folded over the
criteria in order. -/
def srcMatchesCriteria (r : Record) : List (String × Condition) → Except PyErr Bool
  | [] => .ok true
  | (field, cond) :: rest =>
    match r.get field with
    | none => .ok false
    | some v =>
      match cond with
      | .range mn mx => do
        let ok ← rangeCheck v mn mx
        if ok then srcMatchesCriteria r rest else .ok false
      | .scalarNum _ => .error .typeError

/-- `matches_target_group(district_data, target_group)` in
`src/intent_parser.py`. -/
def matches_target_group (r : Record) (tg : TargetGroup) : Except PyErr Bool :=
  srcMatchesCriteria r tg.criteria

/-- Python `value != conditions` for a numeric scalar condition: a text
value is simply unequal to a number (no error). -/
def valueNeNum (v : Value) (q : ℚ) : Bool :=
  match v with
  | .num x => decide (x ≠ q)
  | .str _ => true

/-- The criteria loop of the backend `matches_target_group`. -/
def backendMatchesCriteria (r : Record) : List (String × Condition) → Except PyErr Bool
  | [] => .ok true
  | (field, cond) :: rest =>
    match r.get field with
    | none => .ok false
    | some v =>
      match cond with
      | .range mn mx => do
        let ok ← rangeCheck v mn mx
        if ok then backendMatchesCriteria r rest else .ok false
      | .scalarNum q =>
        if valueNeNum v q then .ok false else backendMatchesCriteria r rest

/-- `matches_target_group` in `backend/drift/detector.py`. -/
def backend_matches_target_group (r : Record) (tg : TargetGroup) : Except PyErr Bool :=
  backendMatchesCriteria r tg.criteria

/-- First-match loop shared by both `classify_district` variants. -/
def classifyLoop (matcher : Record → TargetGroup → Except PyErr Bool)
    (r : Record) : List TargetGroup → Except PyErr String
  | [] => .ok "unclassified"
  | tg :: rest => do
    let m ← matcher r tg
    if m then .ok tg.name else classifyLoop matcher r rest

/-- `classify_district(district_data, policy_intent)` in
`src/drift_detector.py`. -/
def classify_district (r : Record) (intent : PolicyIntent) : Except PyErr String :=
  classifyLoop matches_target_group r intent.target_groups

/-- `classify_district(district_data, target_groups)` in
`backend/drift/detector.py`. -/
def backend_classify_district (r : Record) (tgs : List TargetGroup) : Except PyErr String :=
  classifyLoop backend_matches_target_group r tgs

/-! ### Per-record drift detector (`detect_metric_drift`,
`src/drift_detector.py`)

The emitted list is built in constraint order; the Python
`all_drifts`-append loop is rendered as structural recursion consing
each emission in front of the findings of the remaining constraints. -/

/-- `policy_intent.get_constraints_for_group(group_name)`
(src/intent_parser.py): constraints whose `applies_to` equals the group
or the sentinel `"all"`. -/
def get_constraints_for_group (intent : PolicyIntent) (group_name : String) :
    List Constraint :=
  intent.constraints.filter
    (fun c => c.applies_to = some group_name ∨ c.applies_to = some "all")

/-- The constraint loop of `detect_metric_drift`. -/
def metricLoop (r : Record) (tm : TargetMetrics) (month : Value) :
    List Constraint → Except PyErr (List DriftResult)
  | [] => .ok []
  | c :: rest =>
    if c.ctype = "temporal_consistency" then metricLoop r tm month rest
    else
      match r.get c.metric with
      | none => metricLoop r tm month rest
      | some actual => do
        let res ← check_metric_constraint actual c tm
        if res.1 then
          match actual with
          | .num a => do
            let sev ← calculate_severity a res.2 c.ctype
            let id ← r.getItem "district_id"
            let nm ← r.getItem "district_name"
            let ds ← metricLoop r tm month rest
            .ok ({ drift_type := "metric", district_id := id,
                   district_name := nm, constraint := c, actual_value := a,
                   expected_threshold := res.2, month := month,
                   severity := sev } :: ds)
          | .str _ => .error .typeError
        else metricLoop r tm month rest

/-- `detect_metric_drift(district_data, policy_intent, month)`. -/
def detect_metric_drift (r : Record) (intent : PolicyIntent) (month : Value) :
    Except PyErr (List DriftResult) := do
  let district_group ← classify_district r intent
  metricLoop r intent.target_metrics month
    (get_constraints_for_group intent district_group)

/-- The month value the detectors attach: `record.get("month", "unknown")`. -/
def monthOf (r : Record) : Value :=
  (r.get "month").getD (.str "unknown")

/-! ### Temporal drift detector (`detect_temporal_drift`,
`src/drift_detector.py`) -/

/-- The per-record loop of `detect_temporal_drift` for one temporal
constraint.  Python `value > threshold` raises `TypeError` on a text
value or a `None` threshold. -/
def temporalRecords (c : Constraint) : List Record → Except PyErr (List DriftResult)
  | [] => .ok []
  | r :: rest =>
    match r.get c.metric with
    | none => temporalRecords c rest
    | some v =>
      match v, c.threshold with
      | .num a, some t =>
        if a > t then do
          let month := (r.get "month").getD (.str "unknown")
          let sev ← calculate_severity a t "temporal_consistency"
          let id ← r.getItem "district_id"
          let nm ← r.getItem "district_name"
          let ds ← temporalRecords c rest
          .ok ({ drift_type := "temporal", district_id := id,
                 district_name := nm, constraint := c, actual_value := a,
                 expected_threshold := t, month := month,
                 severity := sev } :: ds)
        else temporalRecords c rest
      | _, _ => .error .typeError

/-- The constraint loop of `detect_temporal_drift`. -/
def temporalLoop (hist : List Record) : List Constraint → Except PyErr (List DriftResult)
  | [] => .ok []
  | c :: rest => do
    let ds ← temporalRecords c hist
    let ds' ← temporalLoop hist rest
    .ok (ds ++ ds')

/-- `detect_temporal_drift(district_history, policy_intent)`. -/
def detect_temporal_drift (hist : List Record) (intent : PolicyIntent) :
    Except PyErr (List DriftResult) :=
  if hist.length < 2 then .ok []
  else temporalLoop hist (intent.constraints.filter (fun c => c.ctype = "temporal_consistency"))

/-! ### Aggregator (`detect_all_drift`, `src/drift_detector.py`)

`district_groups` is a `defaultdict(list)` filled in input order, so
groups appear in first-seen order of `district_id` and each group keeps
the input order of its records. -/

/-- Append a record to its district's group, creating the group at the
end on first sight (insertion-ordered dict). -/
def groupInsert (gs : List (Value × List Record)) (k : Value) (r : Record) :
    List (Value × List Record) :=
  match gs with
  | [] => [(k, [r])]
  | (k', rs) :: rest =>
    if k' = k then (k', rs ++ [r]) :: rest
    else (k', rs) :: groupInsert rest k r

/-- The grouping loop: `record["district_id"]` raises `KeyError` when
the field is absent. -/
def groupByDistrict (data : List Record) : Except PyErr (List (Value × List Record)) :=
  data.foldlM (fun gs r => do
    let id ← r.getItem "district_id"
    .ok (groupInsert gs id r)) []

/-- `detect_all_drift(implementation_data, policy_intent)`: for each
district group, every record's metric findings are appended, then the
group's temporal findings. -/
def detect_all_drift (data : List Record) (intent : PolicyIntent) :
    Except PyErr (List DriftResult) := do
  let gs ← groupByDistrict data
  gs.foldlM (fun all p => do
    let ms ← p.2.foldlM (fun acc r => do
      let ds ← detect_metric_drift r intent (monthOf r)
      .ok (acc ++ ds)) all
    let ts ← detect_temporal_drift p.2 intent
    .ok (ms ++ ts)) []

/-! ### Summary generator (`generate_summary`, `src/explain.py`) -/

/-- Python `str()` of a cell value as used in f-string interpolation. -/
def Value.pyStr : Value → String
  | .num q => toString q
  | .str s => s

/-- Number of findings with the given severity (the `by_severity`
tally). -/
def severityCount (ds : List DriftResult) (s : Severity) : Nat :=
  ds.countP (fun d => decide (d.severity = s))

/-- Number of findings with the given drift type (the `by_type`
tally). -/
def typeCount (ds : List DriftResult) (ty : String) : Nat :=
  ds.countP (fun d => decide (d.drift_type = ty))

/-- The `f"{district_name} ({district_id})"` key of the `by_district`
tally. -/
def districtKey (d : DriftResult) : String :=
  d.district_name.pyStr ++ " (" ++ d.district_id.pyStr ++ ")"

/-- Keys of an insertion-ordered dict: first occurrences, in order. -/
def dedupFirstAux (seen : List String) : List String → List String
  | [] => []
  | x :: rest =>
    if x ∈ seen then dedupFirstAux seen rest
    else x :: dedupFirstAux (x :: seen) rest

def dedupFirst (l : List String) : List String := dedupFirstAux [] l

/-- Insertion into an alphabetically sorted list (Python `sorted`). -/
def insertSortedStr (s : String) : List String → List String
  | [] => [s]
  | t :: rest => if s ≤ t then s :: t :: rest else t :: insertSortedStr s rest

def sortStrings : List String → List String
  | [] => []
  | s :: rest => insertSortedStr s (sortStrings rest)

/-- The `"=" * 50` separator. -/
def eqBar : String := String.mk (List.replicate 50 '=')

/-- The lines joined by `generate_summary` for a non-empty finding
list. -/
def summaryLines (ds : List DriftResult) : List String :=
  ["Policy Drift Detection Summary",
   eqBar,
   "Total drift instances detected: " ++ toString ds.length,
   "",
   "By type:"]
  ++ (sortStrings (dedupFirst (ds.map (fun d => d.drift_type)))).map
       (fun ty => "  " ++ ty ++ ": " ++ toString (typeCount ds ty))
  ++ ["",
      "By severity:",
      "  High: " ++ toString (severityCount ds .high),
      "  Medium: " ++ toString (severityCount ds .medium),
      "  Low: " ++ toString (severityCount ds .low),
      "",
      "Districts with drift: " ++ toString (dedupFirst (ds.map districtKey)).length]

/-- `generate_summary(drifts)` (src/explain.py). -/
def generate_summary (ds : List DriftResult) : String :=
  if ds = [] then
    "No policy drift detected. Implementation aligns with policy intent."
  else
    String.intercalate "\n" (summaryLines ds)

/-! ### Specification-side definitions

These follow the wording of the specification (not the code); the
theorems below compare the code-derived functions against them. -/

/-- `True` exactly on the error side of an `Except`. -/
def isErr {ε α : Type} : Except ε α → Bool
  | .error _ => true
  | .ok _ => false

/-- Spec wording for the temporal detector: the finding (if any) that a
single history record yields for one `temporal_consistency` constraint —
one temporal `DriftResult` with that record's month iff the record has a
non-null numeric value exceeding the constraint's threshold. -/
def temporalSpecFinding (c : Constraint) (r : Record) : Option DriftResult :=
  match r.get c.metric, c.threshold with
  | some (.num a), some t =>
    if a > t then
      some { drift_type := "temporal",
             district_id := (r.get "district_id").getD (.str ""),
             district_name := (r.get "district_name").getD (.str ""),
             constraint := c, actual_value := a, expected_threshold := t,
             month := monthOf r,
             severity := severityBand (deviationOf a t "temporal_consistency") }
    else none
  | _, _ => none

/-- Spec wording for the temporal detector's output: empty for a history
of fewer than 2 records, otherwise one finding per
`temporal_consistency` constraint (selected by type alone) and per
violating record, in constraint-major order. -/
def temporalDriftSpec (hist : List Record) (intent : PolicyIntent) : List DriftResult :=
  if hist.length < 2 then []
  else (intent.constraints.filter (fun c => c.ctype = "temporal_consistency")).flatMap
    (fun c => hist.filterMap (temporalSpecFinding c))

/-- Spec wording for one region's block of findings: the per-record
metric findings in input record order, followed by the region's temporal
findings. -/
def regionBlock (hist : List Record) (intent : PolicyIntent) :
    Except PyErr (List DriftResult) := do
  let mss ← hist.mapM (fun r => detect_metric_drift r intent (monthOf r))
  let ts ← detect_temporal_drift hist intent
  .ok (mss.flatten ++ ts)

/-- Spec wording for the aggregator: concatenation, over regions in
first-seen order, of the per-region blocks. -/
def detectAllSpec (data : List Record) (intent : PolicyIntent) :
    Except PyErr (List DriftResult) := do
  let gs ← groupByDistrict data
  let blocks ← gs.mapM (fun p => regionBlock p.2 intent)
  .ok blocks.flatten

/-! ### Concrete inputs used by witnesses and counterexamples -/

/-- A record whose `coverage_percentage` failed float parsing and was
retained as text by `load_implementation_data`. -/
def textValueRecord : Record :=
  [("district_id", .str "D1"), ("district_name", .str "Alpha"),
   ("coverage_percentage", .str "N/A")]

/-- A minimal intent with one `minimum_coverage` constraint on all
districts. -/
def coverageIntent : PolicyIntent :=
  ⟨"Scheme", [], [⟨"minimum_coverage", "coverage_percentage", some 80, some "all"⟩], []⟩

/-- A target group with an exact-equality numeric criterion. -/
def scalarGroup : TargetGroup := ⟨"g", [("x", .scalarNum 5)]⟩

/-- A record matching `scalarGroup`'s criterion exactly. -/
def scalarRecord : Record := [("x", .num 5)]

/-- An intent whose only target group is `scalarGroup`. -/
def scalarIntent : PolicyIntent := ⟨"Scheme", [scalarGroup], [], []⟩

/-- History records for the temporal counterexample/witness. -/
def histRecord1 : Record :=
  [("district_id", .str "D1"), ("district_name", .str "Alpha"),
   ("monthly_variance", .num 15), ("month", .str "Jan")]

def histRecord2 : Record :=
  [("district_id", .str "D1"), ("district_name", .str "Alpha"),
   ("monthly_variance", .num 1), ("month", .str "Feb")]

/-- A `temporal_consistency` constraint whose threshold is zero. -/
def zeroThresholdIntent : PolicyIntent :=
  ⟨"Scheme", [], [⟨"temporal_consistency", "monthly_variance", some 0, some "all"⟩], []⟩

/-- A well-formed `temporal_consistency` constraint (threshold 10). -/
def temporalIntent : PolicyIntent :=
  ⟨"Scheme", [], [⟨"temporal_consistency", "monthly_variance", some 10, some "all"⟩], []⟩

/-- A `temporal_consistency` constraint with its threshold missing. -/
def missingThresholdIntent : PolicyIntent :=
  ⟨"Scheme", [], [⟨"temporal_consistency", "monthly_variance", none, some "all"⟩], []⟩

/-- A sample finding used to exercise the summary generator. -/
def exDrift : DriftResult :=
  ⟨"metric", .str "D1", .str "Alpha",
   ⟨"minimum_coverage", "coverage_percentage", some 80, some "all"⟩,
   70, 80, .str "2024-01", .high⟩

/-- A record with a parsed numeric coverage value violating
`coverageIntent`. -/
def numValueRecord : Record :=
  [("district_id", .str "D1"), ("district_name", .str "Alpha"),
   ("coverage_percentage", .num 70)]

/-- The finding `detect_all_drift [numValueRecord] coverageIntent`
emits. -/
def coverageDrift : DriftResult :=
  ⟨"metric", .str "D1", .str "Alpha",
   ⟨"minimum_coverage", "coverage_percentage", some 80, some "all"⟩,
   70, 80, .str "unknown", .low⟩

/-- The finding `detect_temporal_drift [histRecord1, histRecord2]
temporalIntent` emits. -/
def temporalWitnessDrift : DriftResult :=
  ⟨"temporal", .str "D1", .str "Alpha",
   ⟨"temporal_consistency", "monthly_variance", some 10, some "all"⟩,
   15, 10, .str "Jan", .high⟩

/-- A `minimum_coverage` constraint with its threshold missing. -/
def missingThresholdCoverageIntent : PolicyIntent :=
  ⟨"Scheme", [], [⟨"minimum_coverage", "coverage_percentage", none, some "all"⟩], []⟩

/-- A record without the mandatory `district_id` field. -/
def noIdRecord : Record :=
  [("district_name", .str "Alpha"), ("coverage_percentage", .num 70)]

/-- A record without a `district_name` field (and no violation). -/
def noNameRecord : Record :=
  [("district_id", .str "D1"), ("coverage_percentage", .num 90)]

/-- The three known constraint types. -/
def knownType (s : String) : Prop :=
  s = "minimum_coverage" ∨ s = "resource_allocation" ∨ s = "temporal_consistency"

/-! ### Helper lemmas -/

lemma exc_bind_ok {e a b : Type} (x : a) (f : a → Except e b) :
    (Except.ok x : Except e a) >>= f = f x := rfl

lemma exc_bind_err {e a b : Type} (er : e) (f : a → Except e b) :
    (Except.error er : Except e a) >>= f = .error er := rfl

lemma exc_pure_eq {e a : Type} (x : a) : (pure x : Except e a) = .ok x := rfl

lemma calculate_severity_of_ne (a t : ℚ) (ct : String) (h : t ≠ 0) :
    calculate_severity a t ct = .ok (severityBand (deviationOf a t ct)) := by
  rw [calculate_severity, if_neg h]

lemma calculate_severity_ok (a t : ℚ) (ct : String) (s : Severity)
    (h : calculate_severity a t ct = .ok s) :
    t ≠ 0 ∧ s = severityBand (deviationOf a t ct) := by
  by_cases h0 : t = 0
  · rw [calculate_severity, if_pos h0] at h
    exact absurd h (by simp)
  · rw [calculate_severity_of_ne a t ct h0] at h
    exact ⟨h0, (Except.ok.injEq _ _ ▸ h).symm⟩

lemma Record.getItem_ok (r : Record) (k : String) (v : Value)
    (h : r.getItem k = .ok v) : r.get k = some v := by
  rw [Record.getItem] at h
  cases hg : r.get k with
  | none => rw [hg] at h; exact absurd h (by simp)
  | some w => rw [hg] at h; simpa using h

lemma Record.getItem_err (r : Record) (k : String) (h : r.get k = none) :
    r.getItem k = .error (.keyError k) := by
  rw [Record.getItem, h]

lemma temporalSpecFinding_none_of_get (c : Constraint) (r : Record)
    (h : r.get c.metric = none) : temporalSpecFinding c r = none := by
  cases ht : c.threshold <;> simp [temporalSpecFinding, h, ht]

lemma temporalRecords_ok_spec (c : Constraint) (hist : List Record) :
    ∀ ds, temporalRecords c hist = .ok ds →
      ds = hist.filterMap (temporalSpecFinding c) := by
  induction hist with
  | nil =>
    intro ds h
    simp only [temporalRecords, Except.ok.injEq] at h
    simp [← h]
  | cons r rest ih =>
    intro ds h
    rw [temporalRecords] at h
    cases hv : r.get c.metric with
    | none =>
      rw [hv] at h
      rw [List.filterMap_cons, temporalSpecFinding_none_of_get c r hv]
      exact ih ds h
    | some v =>
      rw [hv] at h
      cases v with
      | str s => cases ht : c.threshold <;> rw [ht] at h <;> simp at h
      | num a =>
        cases ht : c.threshold with
        | none => rw [ht] at h; simp at h
        | some t =>
          rw [ht] at h
          dsimp only at h
          by_cases hat : a > t
          · rw [if_pos hat] at h
            cases hsev : calculate_severity a t "temporal_consistency" with
            | error e => simp [hsev, Bind.bind, Except.bind] at h
            | ok sev =>
              cases hid : r.getItem "district_id" with
              | error e => simp [hsev, hid, Bind.bind, Except.bind] at h
              | ok idv =>
                cases hnm : r.getItem "district_name" with
                | error e => simp [hsev, hid, hnm, Bind.bind, Except.bind] at h
                | ok nmv =>
                  cases hrec : temporalRecords c rest with
                  | error e => simp [hsev, hid, hnm, hrec, Bind.bind, Except.bind] at h
                  | ok ds' =>
                    simp only [hsev, hid, hnm, hrec, Bind.bind, Except.bind,
                      Except.ok.injEq] at h
                    rw [List.filterMap_cons]
                    have hfind : temporalSpecFinding c r =
                        some { drift_type := "temporal",
                               district_id := idv, district_name := nmv,
                               constraint := c, actual_value := a,
                               expected_threshold := t, month := monthOf r,
                               severity := sev } := by
                      rw [temporalSpecFinding, hv, ht]
                      dsimp only
                      rw [if_pos hat]
                      rw [Record.getItem_ok r "district_id" idv hid,
                          Record.getItem_ok r "district_name" nmv hnm]
                      rw [(calculate_severity_ok a t "temporal_consistency" sev hsev).2]
                      rfl
                    rw [hfind, ← h]
                    exact congrArg _ (ih ds' hrec)
          · rw [if_neg hat] at h
            rw [List.filterMap_cons]
            have hfind : temporalSpecFinding c r = none := by
              rw [temporalSpecFinding, hv, ht]
              dsimp only
              rw [if_neg hat]
            rw [hfind]
            exact ih ds h

lemma temporalLoop_ok_spec (hist : List Record) :
    ∀ (cs : List Constraint) (ds : List DriftResult),
      temporalLoop hist cs = .ok ds →
      ds = cs.flatMap (fun c => hist.filterMap (temporalSpecFinding c)) := by
  intro cs
  induction cs with
  | nil =>
    intro ds h
    simp only [temporalLoop, Except.ok.injEq] at h
    simp [← h]
  | cons c rest ih =>
    intro ds h
    rw [temporalLoop] at h
    cases hc : temporalRecords c hist with
    | error e => simp [hc, Bind.bind, Except.bind] at h
    | ok ds1 =>
      cases hrest : temporalLoop hist rest with
      | error e => simp [hc, hrest, Bind.bind, Except.bind] at h
      | ok ds2 =>
        simp only [hc, hrest, Bind.bind, Except.bind, Except.ok.injEq] at h
        rw [List.flatMap_cons, ← h,
          temporalRecords_ok_spec c hist ds1 hc, ih ds2 hrest]

lemma detect_temporal_ok_spec (hist : List Record) (intent : PolicyIntent)
    (ds : List DriftResult) (h : detect_temporal_drift hist intent = .ok ds) :
    ds = temporalDriftSpec hist intent := by
  rw [detect_temporal_drift] at h
  rw [temporalDriftSpec]
  by_cases hl : hist.length < 2
  · rw [if_pos hl] at h
    rw [if_pos hl]
    simpa using h.symm
  · rw [if_neg hl] at h
    rw [if_neg hl]
    exact temporalLoop_ok_spec hist _ ds h

lemma check_known_ok (v : Value) (c : Constraint) (tm : TargetMetrics)
    (res : Bool × ℚ) (hk : knownType c.ctype)
    (h : check_metric_constraint v c tm = .ok res) :
    c.threshold = some res.2 := by
  rcases ht : c.threshold with _ | t
  · exfalso
    rcases hk with h1 | h1 | h1 <;> cases v <;>
      simp [check_metric_constraint, h1, ht] at h
  · rcases hk with h1 | h1 | h1 <;> cases v <;>
      simp [check_metric_constraint, h1, ht] at h <;> simp [← h]

lemma check_known_none_threshold (v : ℚ) (c : Constraint) (tm : TargetMetrics)
    (hk : knownType c.ctype) (ht : c.threshold = none) :
    check_metric_constraint (.num v) c tm = .error .typeError := by
  rcases hk with h1 | h1 | h1 <;> simp [check_metric_constraint, h1, ht]

lemma metricLoop_isErr (r : Record) (tm : TargetMetrics) (month : Value)
    (cs : List Constraint) (c : Constraint) (v : Value) (er : PyErr)
    (hc : c ∈ cs) (hnt : c.ctype ≠ "temporal_consistency")
    (hv : r.get c.metric = some v)
    (hchk : check_metric_constraint v c tm = .error er) :
    isErr (metricLoop r tm month cs) = true := by
  induction cs with
  | nil => cases hc
  | cons d rest ih =>
    rw [metricLoop]
    by_cases hd : d.ctype = "temporal_consistency"
    · rw [if_pos hd]
      rcases List.mem_cons.mp hc with rfl | hm
      · exact absurd hd hnt
      · exact ih hm
    · rw [if_neg hd]
      cases hdv : r.get d.metric with
      | none =>
        rcases List.mem_cons.mp hc with rfl | hm
        · simp [hv] at hdv
        · exact ih hm
      | some w =>
        cases hchk2 : check_metric_constraint w d tm with
        | error e => simp [hchk2, Bind.bind, Except.bind, isErr]
        | ok res =>
          rcases List.mem_cons.mp hc with rfl | hm
          · rw [hv] at hdv
            injection hdv with hw
            rw [← hw] at hchk2
            rw [hchk] at hchk2
            cases hchk2
          · simp only [hchk2, Bind.bind, Except.bind]
            by_cases hres : res.1 = true
            · rw [if_pos hres]
              cases w with
              | str s => simp [isErr]
              | num a =>
                cases hsev : calculate_severity a res.2 d.ctype with
                | error e => simp [hsev, Bind.bind, Except.bind, isErr]
                | ok sev =>
                  cases hid : r.getItem "district_id" with
                  | error e => simp [hsev, hid, Bind.bind, Except.bind, isErr]
                  | ok idv =>
                    cases hnm : r.getItem "district_name" with
                    | error e =>
                      simp [hsev, hid, hnm, Bind.bind, Except.bind, isErr]
                    | ok nmv =>
                      cases hrec : metricLoop r tm month rest with
                      | error e =>
                        simp [hsev, hid, hnm, hrec, Bind.bind, Except.bind, isErr]
                      | ok ds =>
                        have ihm := ih hm
                        rw [hrec] at ihm
                        simp [isErr] at ihm
            · rw [if_neg hres]
              exact ih hm

lemma metricLoop_ok_inv (r : Record) (tm : TargetMetrics) (month : Value)
    (cs : List Constraint) :
    ∀ ds, metricLoop r tm month cs = .ok ds →
      ∀ d ∈ ds, knownType d.constraint.ctype →
        d.constraint.threshold = some d.expected_threshold := by
  induction cs with
  | nil =>
    intro ds h
    simp only [metricLoop, Except.ok.injEq] at h
    simp [← h]
  | cons c rest ih =>
    intro ds h
    rw [metricLoop] at h
    by_cases hct : c.ctype = "temporal_consistency"
    · rw [if_pos hct] at h
      exact ih ds h
    · rw [if_neg hct] at h
      cases hv : r.get c.metric with
      | none => rw [hv] at h; exact ih ds h
      | some v =>
        rw [hv] at h
        dsimp only at h
        cases hchk : check_metric_constraint v c tm with
        | error e => simp [hchk, Bind.bind, Except.bind] at h
        | ok res =>
          simp only [hchk, Bind.bind, Except.bind] at h
          by_cases hres : res.1 = true
          · rw [if_pos hres] at h
            cases v with
            | str s => simp at h
            | num a =>
              cases hsev : calculate_severity a res.2 c.ctype with
              | error e => simp [hsev, Bind.bind, Except.bind] at h
              | ok sev =>
                cases hid : r.getItem "district_id" with
                | error e => simp [hsev, hid, Bind.bind, Except.bind] at h
                | ok idv =>
                  cases hnm : r.getItem "district_name" with
                  | error e => simp [hsev, hid, hnm, Bind.bind, Except.bind] at h
                  | ok nmv =>
                    cases hrec : metricLoop r tm month rest with
                    | error e =>
                      simp [hsev, hid, hnm, hrec, Bind.bind, Except.bind] at h
                    | ok ds' =>
                      simp only [hsev, hid, hnm, hrec, Bind.bind, Except.bind,
                        Except.ok.injEq] at h
                      intro d hd hkd
                      rw [← h] at hd
                      rcases List.mem_cons.mp hd with rfl | hm
                      · exact check_known_ok _ _ _ _ hkd hchk
                      · exact ih ds' hrec d hm hkd
          · rw [if_neg hres] at h
            exact ih ds h

lemma metricLoop_ok_no_name (r : Record) (tm : TargetMetrics) (month : Value)
    (cs : List Constraint) (hnm : r.get "district_name" = none) :
    ∀ ds, metricLoop r tm month cs = .ok ds → ds = [] := by
  induction cs with
  | nil =>
    intro ds h
    simp only [metricLoop, Except.ok.injEq] at h
    exact h.symm
  | cons c rest ih =>
    intro ds h
    rw [metricLoop] at h
    by_cases hct : c.ctype = "temporal_consistency"
    · rw [if_pos hct] at h
      exact ih ds h
    · rw [if_neg hct] at h
      cases hv : r.get c.metric with
      | none => rw [hv] at h; exact ih ds h
      | some v =>
        rw [hv] at h
        dsimp only at h
        cases hchk : check_metric_constraint v c tm with
        | error e => simp [hchk, Bind.bind, Except.bind] at h
        | ok res =>
          simp only [hchk, Bind.bind, Except.bind] at h
          by_cases hres : res.1 = true
          · rw [if_pos hres] at h
            cases v with
            | str s => simp at h
            | num a =>
              cases hsev : calculate_severity a res.2 c.ctype with
              | error e => simp [hsev, Bind.bind, Except.bind] at h
              | ok sev =>
                cases hid : r.getItem "district_id" with
                | error e => simp [hsev, hid, Bind.bind, Except.bind] at h
                | ok idv =>
                  rw [Record.getItem_err r "district_name" hnm] at h
                  simp [hsev, hid, Bind.bind, Except.bind] at h
          · rw [if_neg hres] at h
            exact ih ds h

lemma detect_metric_ok_inv (r : Record) (intent : PolicyIntent) (month : Value)
    (ds : List DriftResult) (h : detect_metric_drift r intent month = .ok ds) :
    ∀ d ∈ ds, knownType d.constraint.ctype →
      d.constraint.threshold = some d.expected_threshold := by
  rw [detect_metric_drift] at h
  cases hg : classify_district r intent with
  | error e => simp [hg, Bind.bind, Except.bind] at h
  | ok g =>
    simp only [hg, Bind.bind, Except.bind] at h
    exact metricLoop_ok_inv r intent.target_metrics month _ ds h

lemma detect_metric_ok_no_name (r : Record) (intent : PolicyIntent) (month : Value)
    (hnm : r.get "district_name" = none)
    (ds : List DriftResult) (h : detect_metric_drift r intent month = .ok ds) :
    ds = [] := by
  rw [detect_metric_drift] at h
  cases hg : classify_district r intent with
  | error e => simp [hg, Bind.bind, Except.bind] at h
  | ok g =>
    simp only [hg, Bind.bind, Except.bind] at h
    exact metricLoop_ok_no_name r intent.target_metrics month _ hnm ds h

lemma temporalRecords_none_threshold (c : Constraint) (hth : c.threshold = none)
    (hist : List Record) (r : Record) (v : Value)
    (hr : r ∈ hist) (hv : r.get c.metric = some v) :
    temporalRecords c hist = .error .typeError := by
  induction hist with
  | nil => cases hr
  | cons x rest ih =>
    rw [temporalRecords]
    cases hxv : x.get c.metric with
    | none =>
      rcases List.mem_cons.mp hr with rfl | hm
      · simp [hv] at hxv
      · exact ih hm
    | some w =>
      rw [hth]
      cases w <;> rfl

lemma temporalLoop_isErr_of_mem (hist : List Record) (cs : List Constraint)
    (c : Constraint) (er : PyErr) (hc : c ∈ cs)
    (he : temporalRecords c hist = .error er) :
    isErr (temporalLoop hist cs) = true := by
  induction cs with
  | nil => cases hc
  | cons d rest ih =>
    rw [temporalLoop]
    cases hd : temporalRecords d hist with
    | error e => simp [hd, Bind.bind, Except.bind, isErr]
    | ok ds =>
      rcases List.mem_cons.mp hc with rfl | hm
      · rw [he] at hd; cases hd
      · simp only [hd, Bind.bind, Except.bind]
        cases hrest : temporalLoop hist rest with
        | error e => simp [isErr]
        | ok ds' =>
          have ihm := ih hm
          rw [hrest] at ihm
          simp [isErr] at ihm

lemma temporalSpecFinding_inv (c : Constraint) (r : Record) (d : DriftResult)
    (h : temporalSpecFinding c r = some d) :
    d.constraint = c ∧ d.constraint.threshold = some d.expected_threshold := by
  rw [temporalSpecFinding] at h
  cases hv : r.get c.metric with
  | none => rw [hv] at h; cases ht : c.threshold <;> rw [ht] at h <;> cases h
  | some v =>
    rw [hv] at h
    cases v with
    | str s => cases ht : c.threshold <;> rw [ht] at h <;> cases h
    | num a =>
      cases ht : c.threshold with
      | none => rw [ht] at h; cases h
      | some t =>
        rw [ht] at h
        dsimp only at h
        by_cases hat : a > t
        · rw [if_pos hat] at h
          injection h with h
          rw [← h]
          exact ⟨rfl, ht⟩
        · rw [if_neg hat] at h; cases h

lemma detect_temporal_ok_inv (hist : List Record) (intent : PolicyIntent)
    (ds : List DriftResult) (h : detect_temporal_drift hist intent = .ok ds) :
    ∀ d ∈ ds, d.constraint.threshold = some d.expected_threshold := by
  intro d hd
  rw [detect_temporal_ok_spec hist intent ds h] at hd
  rw [temporalDriftSpec] at hd
  by_cases hl : hist.length < 2
  · rw [if_pos hl] at hd; cases hd
  · rw [if_neg hl] at hd
    rcases List.mem_flatMap.mp hd with ⟨c, _, hdc⟩
    rcases List.mem_filterMap.mp hdc with ⟨r, _, hfr⟩
    exact (temporalSpecFinding_inv c r d hfr).2

lemma mapM_ok_mem {α β : Type} (f : α → Except PyErr β) (l : List α) :
    ∀ out, l.mapM f = .ok out → ∀ b ∈ out, ∃ a ∈ l, f a = .ok b := by
  induction l with
  | nil =>
    intro out h
    simp only [List.mapM_nil] at h
    cases h
    simp
  | cons x xs ih =>
    intro out h
    rw [List.mapM_cons] at h
    cases hf : f x with
    | error e =>
      rw [hf] at h
      simp [Bind.bind, Except.bind] at h
    | ok b0 =>
      rw [hf] at h
      cases hrest : xs.mapM f with
      | error e =>
        rw [hrest] at h
        simp [Bind.bind, Except.bind] at h
      | ok bs =>
        rw [hrest] at h
        simp only [Bind.bind, Except.bind, pure, Except.pure,
          Except.ok.injEq] at h
        intro b hb
        rw [← h] at hb
        rcases List.mem_cons.mp hb with rfl | hm
        · exact ⟨x, List.mem_cons_self x xs, hf⟩
        · rcases ih bs hrest b hm with ⟨a, ha, hfa⟩
          exact ⟨a, List.mem_cons_of_mem x ha, hfa⟩

lemma foldlM_append_eq_mapM {α β : Type} (g : α → Except PyErr (List β))
    (l : List α) :
    ∀ acc : List β,
      (l.foldlM (fun acc r => do
        let ds ← g r
        Except.ok (acc ++ ds)) acc)
      = (do
          let mss ← l.mapM g
          Except.ok (acc ++ mss.flatten)) := by
  induction l with
  | nil =>
    intro acc
    simp only [List.foldlM_nil, List.mapM_nil, exc_pure_eq, exc_bind_ok]
    simp
  | cons x xs ih =>
    intro acc
    rw [List.foldlM_cons, List.mapM_cons]
    cases hg : g x with
    | error e => simp only [hg, exc_bind_err]
    | ok ds =>
      simp only [hg, exc_bind_ok]
      rw [ih (acc ++ ds)]
      cases hrest : xs.mapM g with
      | error e => simp only [hrest, exc_bind_err]
      | ok mss =>
        simp only [hrest, exc_bind_ok, exc_pure_eq]
        simp [List.append_assoc]

lemma Record.getItem_some (r : Record) (k : String) (v : Value)
    (h : r.get k = some v) : r.getItem k = .ok v := by
  rw [Record.getItem, h]

lemma regionStep_eq (intent : PolicyIntent) (p : Value × List Record)
    (all : List DriftResult) :
    (do
      let ms ← (do
        let mss ← p.2.mapM (fun r => detect_metric_drift r intent (monthOf r))
        Except.ok (all ++ mss.flatten))
      let ts ← detect_temporal_drift p.2 intent
      Except.ok (ms ++ ts))
    = (do
      let b ← regionBlock p.2 intent
      Except.ok (all ++ b)) := by
  rw [regionBlock]
  cases hm : p.2.mapM (fun r => detect_metric_drift r intent (monthOf r)) with
  | error e => simp only [hm, exc_bind_err]
  | ok mss =>
    simp only [hm, exc_bind_ok]
    cases ht : detect_temporal_drift p.2 intent with
    | error e => simp only [ht, exc_bind_err]
    | ok ts =>
      simp only [ht, exc_bind_ok]
      simp [List.append_assoc]

lemma detect_all_eq_spec (data : List Record) (intent : PolicyIntent) :
    detect_all_drift data intent = detectAllSpec data intent := by
  rw [detect_all_drift, detectAllSpec]
  cases hg : groupByDistrict data with
  | error e => simp only [hg, exc_bind_err]
  | ok gs =>
    simp only [hg, exc_bind_ok]
    have hfun : (fun (all : List DriftResult) (p : Value × List Record) => do
          let ms ← p.2.foldlM (fun acc r => do
            let ds ← detect_metric_drift r intent (monthOf r)
            Except.ok (acc ++ ds)) all
          let ts ← detect_temporal_drift p.2 intent
          Except.ok (ms ++ ts))
        = (fun (all : List DriftResult) (p : Value × List Record) => do
          let b ← regionBlock p.2 intent
          Except.ok (all ++ b)) := by
      funext all p
      rw [foldlM_append_eq_mapM]
      exact regionStep_eq intent p all
    rw [hfun, foldlM_append_eq_mapM (fun p => regionBlock p.2 intent) gs []]
    cases hbs : gs.mapM (fun p => regionBlock p.2 intent) with
    | error e => simp only [hbs, exc_bind_err]
    | ok bs =>
      simp only [hbs, exc_bind_ok]
      simp

lemma groupFold_err (data : List Record) :
    ∀ (init : List (Value × List Record)),
      (∃ r ∈ data, r.get "district_id" = none) →
      (data.foldlM (fun gs r => do
        let id ← r.getItem "district_id"
        Except.ok (groupInsert gs id r)) init) = .error (.keyError "district_id") := by
  induction data with
  | nil =>
    intro init h
    rcases h with ⟨r, hr, _⟩
    cases hr
  | cons x xs ih =>
    intro init h
    rw [List.foldlM_cons]
    cases hx : x.get "district_id" with
    | none =>
      simp only [Record.getItem_err x "district_id" hx, exc_bind_err]
    | some v =>
      simp only [Record.getItem_some x "district_id" v hx, exc_bind_ok]
      apply ih
      rcases h with ⟨r, hr, hrn⟩
      rcases List.mem_cons.mp hr with rfl | hm
      · rw [hx] at hrn; cases hrn
      · exact ⟨r, hm, hrn⟩

lemma groupByDistrict_err (data : List Record) (r : Record)
    (hr : r ∈ data) (hn : r.get "district_id" = none) :
    groupByDistrict data = .error (.keyError "district_id") := by
  rw [groupByDistrict]
  exact groupFold_err data [] ⟨r, hr, hn⟩

lemma detect_all_ok_inv (data : List Record) (intent : PolicyIntent)
    (out : List DriftResult) (h : detect_all_drift data intent = .ok out) :
    ∀ d ∈ out, knownType d.constraint.ctype →
      d.constraint.threshold = some d.expected_threshold := by
  rw [detect_all_eq_spec, detectAllSpec] at h
  cases hg : groupByDistrict data with
  | error e => simp only [hg, exc_bind_err] at h; cases h
  | ok gs =>
    simp only [hg, exc_bind_ok] at h
    cases hbs : gs.mapM (fun p => regionBlock p.2 intent) with
    | error e => simp only [hbs, exc_bind_err] at h; cases h
    | ok bs =>
      simp only [hbs, exc_bind_ok, Except.ok.injEq] at h
      intro d hd hk
      rw [← h] at hd
      rcases List.mem_flatten.mp hd with ⟨b, hb, hdb⟩
      rcases mapM_ok_mem _ gs bs hbs b hb with ⟨p, _, hpb⟩
      rw [regionBlock] at hpb
      cases hm : p.2.mapM (fun r => detect_metric_drift r intent (monthOf r)) with
      | error e => simp only [hm, exc_bind_err] at hpb; cases hpb
      | ok mss =>
        simp only [hm, exc_bind_ok] at hpb
        cases htp : detect_temporal_drift p.2 intent with
        | error e => simp only [htp, exc_bind_err] at hpb; cases hpb
        | ok ts =>
          simp only [htp, exc_bind_ok, Except.ok.injEq] at hpb
          rw [← hpb] at hdb
          rcases List.mem_append.mp hdb with hdm | hdt
          · rcases List.mem_flatten.mp hdm with ⟨ms, hms, hdms⟩
            rcases mapM_ok_mem _ p.2 mss hm ms hms with ⟨r, _, hrms⟩
            exact detect_metric_ok_inv r intent (monthOf r) ms hrms d hdms hk
          · exact detect_temporal_ok_inv p.2 intent ts htp d hdt

lemma sev_70_80 : calculate_severity 70 80 "minimum_coverage" = .ok .low := by
  rw [calculate_severity, if_neg (by norm_num : ¬(80:ℚ) = 0), deviationOf,
    if_pos (Or.inl rfl), severityBand,
    if_neg (by norm_num : ¬((80:ℚ) - 70) / 80 * 100 > 30),
    if_neg (by norm_num : ¬((80:ℚ) - 70) / 80 * 100 > 15)]

lemma metric_numValue :
    detect_metric_drift numValueRecord coverageIntent (monthOf numValueRecord) =
      .ok [coverageDrift] := by
  simp [detect_metric_drift, numValueRecord, coverageIntent, classify_district,
    classifyLoop, get_constraints_for_group, metricLoop, check_metric_constraint,
    monthOf, Record.get, Record.getItem, List.lookup, sev_70_80, coverageDrift,
    (by norm_num : (70:ℚ) < 80), Bind.bind, Except.bind]

lemma regionBlock_numValue :
    regionBlock [numValueRecord] coverageIntent = .ok [coverageDrift] := by
  rw [regionBlock, List.mapM_cons, List.mapM_nil, metric_numValue]
  simp [detect_temporal_drift, pure, Except.pure, Bind.bind, Except.bind]

lemma groups_numValue :
    groupByDistrict [numValueRecord] = .ok [(Value.str "D1", [numValueRecord])] := by
  simp [groupByDistrict, numValueRecord, Record.get, Record.getItem, List.lookup,
    groupInsert, List.foldlM_cons, List.foldlM_nil, pure, Except.pure,
    Bind.bind, Except.bind]

lemma run_numValue :
    detect_all_drift [numValueRecord] coverageIntent = .ok [coverageDrift] := by
  simp [detect_all_drift, groupByDistrict, numValueRecord, coverageIntent, Record.get,
    Record.getItem, List.lookup, groupInsert, detect_metric_drift, classify_district,
    classifyLoop, get_constraints_for_group, metricLoop, check_metric_constraint,
    detect_temporal_drift, temporalLoop, monthOf, sev_70_80, coverageDrift,
    List.foldlM_cons, List.foldlM_nil, pure, Except.pure,
    (by norm_num : (70:ℚ) < 80), Bind.bind, Except.bind]

lemma severityCount_partition (ds : List DriftResult) :
    severityCount ds .high + severityCount ds .medium + severityCount ds .low =
      ds.length := by
  induction ds with
  | nil => simp [severityCount]
  | cons d rest ih =>
    cases hs : d.severity <;>
      simp only [severityCount, List.countP_cons, hs, List.length_cons] at ih ⊢ <;>
      simp <;> omega

/-! ### Claim theorems -/

/-- C1: for every numeric value and every constraint of type
`minimum_coverage` or `resource_allocation` (with its threshold
present), the evaluator reports a violation iff `value < threshold`;
for `temporal_consistency` iff `value > threshold`; in each case the
returned threshold is the constraint's own threshold. -/
theorem claim1_evaluator_directions (v t : ℚ) (c : Constraint)
    (tm : TargetMetrics) (hth : c.threshold = some t) :
    ((c.ctype = "minimum_coverage" ∨ c.ctype = "resource_allocation") →
      check_metric_constraint (.num v) c tm = .ok (decide (v < t), t)) ∧
    (c.ctype = "temporal_consistency" →
      check_metric_constraint (.num v) c tm = .ok (decide (v > t), t)) := by
  constructor
  · rintro (h1 | h1) <;> simp [check_metric_constraint, h1, hth]
  · intro h1
    simp [check_metric_constraint, h1, hth]

/-- Witness for C1 at concrete inputs. -/
theorem claim1_evaluator_directions_witness :
    check_metric_constraint (.num 70)
      ⟨"minimum_coverage", "coverage_percentage", some 80, some "all"⟩ []
      = .ok (true, 80) ∧
    check_metric_constraint (.num 5)
      ⟨"temporal_consistency", "monthly_variance", some 10, some "all"⟩ []
      = .ok (false, 10) := by
  constructor
  · have h := (claim1_evaluator_directions 70 80
      ⟨"minimum_coverage", "coverage_percentage", some 80, some "all"⟩ [] rfl).1
      (Or.inl rfl)
    rw [h]
    norm_num
  · have h := (claim1_evaluator_directions 5 10
      ⟨"temporal_consistency", "monthly_variance", some 10, some "all"⟩ [] rfl).2 rfl
    rw [h]
    norm_num

/-- C2: for nonzero threshold the severity scorer computes the claimed
deviation by constraint type and bands it: `> 30` high, `15 <  ≤ 30`
medium, `≤ 15` (including negative) low, without raising an error. -/
theorem claim2_severity_bands (a t : ℚ) (ct : String) (h : t ≠ 0) :
    ((ct = "minimum_coverage" ∨ ct = "resource_allocation") →
      (((t - a) / t * 100 > 30 → calculate_severity a t ct = .ok .high) ∧
       (15 < (t - a) / t * 100 ∧ (t - a) / t * 100 ≤ 30 →
         calculate_severity a t ct = .ok .medium) ∧
       ((t - a) / t * 100 ≤ 15 → calculate_severity a t ct = .ok .low))) ∧
    (¬(ct = "minimum_coverage" ∨ ct = "resource_allocation") →
      (((a - t) / t * 100 > 30 → calculate_severity a t ct = .ok .high) ∧
       (15 < (a - t) / t * 100 ∧ (a - t) / t * 100 ≤ 30 →
         calculate_severity a t ct = .ok .medium) ∧
       ((a - t) / t * 100 ≤ 15 → calculate_severity a t ct = .ok .low))) := by
  constructor
  · intro hc
    have hdev : deviationOf a t ct = (t - a) / t * 100 := by
      rw [deviationOf, if_pos hc]
    refine ⟨fun hb => ?_, fun hb => ?_, fun hb => ?_⟩ <;>
      rw [calculate_severity_of_ne a t ct h, hdev, severityBand]
    · rw [if_pos hb]
    · rw [if_neg (by linarith [hb.2] : ¬(t - a) / t * 100 > 30), if_pos hb.1]
    · rw [if_neg (by linarith : ¬(t - a) / t * 100 > 30),
          if_neg (by linarith : ¬(t - a) / t * 100 > 15)]
  · intro hc
    have hdev : deviationOf a t ct = (a - t) / t * 100 := by
      rw [deviationOf, if_neg hc]
    refine ⟨fun hb => ?_, fun hb => ?_, fun hb => ?_⟩ <;>
      rw [calculate_severity_of_ne a t ct h, hdev, severityBand]
    · rw [if_pos hb]
    · rw [if_neg (by linarith [hb.2] : ¬(a - t) / t * 100 > 30), if_pos hb.1]
    · rw [if_neg (by linarith : ¬(a - t) / t * 100 > 30),
          if_neg (by linarith : ¬(a - t) / t * 100 > 15)]

/-- Witness for C2 at concrete inputs. -/
theorem claim2_severity_bands_witness :
    calculate_severity 50 100 "minimum_coverage" = .ok .high ∧
    calculate_severity 44 40 "temporal_consistency" = .ok .low := by
  constructor
  · exact ((claim2_severity_bands 50 100 "minimum_coverage" (by norm_num)).1
      (Or.inl rfl)).1 (by norm_num)
  · exact ((claim2_severity_bands 44 40 "temporal_consistency" (by norm_num)).2
      (by simp)).2.2 (by norm_num)

/-- C3 (code evaluation): a threshold of exactly 0 makes the severity
scorer raise `ZeroDivisionError` instead of returning "high". -/
theorem claim3_zero_threshold_code_eval :
    calculate_severity 50 0 "minimum_coverage" = .error .zeroDivisionError ∧
    calculate_severity 50 0 "temporal_consistency" = .error .zeroDivisionError := by
  constructor <;> rw [calculate_severity, if_pos rfl]

/-- C4 (code evaluation): a text value retained by ingestion reaches the
numeric comparison in the evaluator and raises `TypeError`; the
per-record detector propagates it instead of skipping the
constraint. -/
theorem claim4_text_value_code_eval :
    detect_metric_drift textValueRecord coverageIntent (.str "2024-01")
      = .error .typeError := by
  simp [detect_metric_drift, textValueRecord, coverageIntent, classify_district,
    classifyLoop, get_constraints_for_group, metricLoop, check_metric_constraint,
    Record.get, List.lookup, Bind.bind, Except.bind]

/-- C5: a known-type constraint whose threshold is missing makes the
evaluator raise; the per-record and temporal detectors propagate the
failure whenever such a constraint is evaluated against a present value;
and no successful run ever emits a known-type finding whose recorded
threshold differs from the constraint's own stored threshold (no
defaulting). -/
theorem claim5_missing_threshold :
    (∀ (v : ℚ) (c : Constraint) (tm : TargetMetrics),
      knownType c.ctype → c.threshold = none →
      check_metric_constraint (.num v) c tm = .error .typeError) ∧
    (∀ (r : Record) (intent : PolicyIntent) (month : Value) (c : Constraint)
       (g : String) (v : ℚ),
      classify_district r intent = .ok g →
      c ∈ get_constraints_for_group intent g →
      (c.ctype = "minimum_coverage" ∨ c.ctype = "resource_allocation") →
      c.threshold = none → r.get c.metric = some (.num v) →
      isErr (detect_metric_drift r intent month) = true) ∧
    (∀ (hist : List Record) (intent : PolicyIntent) (c : Constraint)
       (r : Record) (v : Value),
      2 ≤ hist.length → c ∈ intent.constraints →
      c.ctype = "temporal_consistency" → c.threshold = none →
      r ∈ hist → r.get c.metric = some v →
      isErr (detect_temporal_drift hist intent) = true) ∧
    (∀ (data : List Record) (intent : PolicyIntent) (out : List DriftResult),
      detect_all_drift data intent = .ok out →
      ∀ d ∈ out, knownType d.constraint.ctype →
        d.constraint.threshold = some d.expected_threshold) := by
  refine ⟨check_known_none_threshold, ?_, ?_, detect_all_ok_inv⟩
  · intro r intent month c g v hg hc hty ht hv
    rw [detect_metric_drift]
    simp only [hg, exc_bind_ok]
    apply metricLoop_isErr r intent.target_metrics month _ c (.num v) .typeError hc
      ?_ hv ?_
    · rcases hty with h1 | h1 <;> rw [h1] <;> simp
    · refine check_known_none_threshold v c intent.target_metrics ?_ ht
      rcases hty with h1 | h1
      · exact Or.inl h1
      · exact Or.inr (Or.inl h1)
  · intro hist intent c r v hl hc hty ht hr hv
    rw [detect_temporal_drift, if_neg (by omega : ¬hist.length < 2)]
    refine temporalLoop_isErr_of_mem hist _ c .typeError ?_ ?_
    · exact List.mem_filter.mpr ⟨hc, by simp [hty]⟩
    · exact temporalRecords_none_threshold c ht hist r v hr hv

/-- Witness for C5 at concrete inputs. -/
theorem claim5_missing_threshold_witness :
    check_metric_constraint (.num 50)
      ⟨"minimum_coverage", "coverage_percentage", none, some "all"⟩ []
      = .error .typeError ∧
    isErr (detect_metric_drift
      [("district_id", .str "D1"), ("district_name", .str "Alpha"),
       ("coverage_percentage", .num 50)]
      missingThresholdCoverageIntent (.str "Jan")) = true ∧
    isErr (detect_temporal_drift [histRecord1, histRecord2]
      missingThresholdIntent) = true ∧
    coverageDrift.constraint.threshold = some coverageDrift.expected_threshold := by
  refine ⟨?_, ?_, ?_, ?_⟩
  · exact claim5_missing_threshold.1 50
      ⟨"minimum_coverage", "coverage_percentage", none, some "all"⟩ []
      (Or.inl rfl) rfl
  · exact claim5_missing_threshold.2.1
      [("district_id", .str "D1"), ("district_name", .str "Alpha"),
       ("coverage_percentage", .num 50)]
      missingThresholdCoverageIntent (.str "Jan")
      ⟨"minimum_coverage", "coverage_percentage", none, some "all"⟩
      "unclassified" 50 rfl (by simp [get_constraints_for_group,
        missingThresholdCoverageIntent]) (Or.inl rfl) rfl rfl
  · exact claim5_missing_threshold.2.2.1 [histRecord1, histRecord2]
      missingThresholdIntent
      ⟨"temporal_consistency", "monthly_variance", none, some "all"⟩
      histRecord1 (.num 15) (by simp)
      (by simp [missingThresholdIntent]) rfl rfl (by simp) rfl
  · exact claim5_missing_threshold.2.2.2 [numValueRecord] coverageIntent
      [coverageDrift] run_numValue coverageDrift (by simp) (Or.inl rfl)

/-- C6 (code evaluation): on a record satisfying an exact-equality
numeric criterion, the backend classifier returns the group's name as
specified, while the src variant raises `TypeError` on the membership
test `"min" in conditions`. -/
theorem claim6_scalar_criterion_code_eval :
    backend_classify_district scalarRecord [scalarGroup] = .ok "g" ∧
    classify_district scalarRecord scalarIntent = .error .typeError := by
  constructor
  · simp [backend_classify_district, classifyLoop, backend_matches_target_group,
      scalarRecord, scalarGroup, backendMatchesCriteria, Record.get, List.lookup,
      valueNeNum, Bind.bind, Except.bind]
  · simp [classify_district, classifyLoop, matches_target_group, scalarRecord,
      scalarIntent, scalarGroup, srcMatchesCriteria, Record.get, List.lookup,
      Bind.bind, Except.bind]

/-- C7 (amended): the temporal detector returns `[]` for histories of
fewer than 2 records, and whenever it completes without error its output
is exactly the spec's list: per `temporal_consistency` constraint
(selected by type alone) and per history record with a non-null numeric
metric value, one temporal finding carrying that record's month iff
`value > threshold`. -/
theorem claim7_temporal_detector :
    (∀ (hist : List Record) (intent : PolicyIntent),
      hist.length < 2 → detect_temporal_drift hist intent = .ok []) ∧
    (∀ (hist : List Record) (intent : PolicyIntent) (ds : List DriftResult),
      detect_temporal_drift hist intent = .ok ds →
      ds = temporalDriftSpec hist intent) := by
  constructor
  · intro hist intent hl
    rw [detect_temporal_drift, if_pos hl]
  · exact detect_temporal_ok_spec

/-- Witness for C7 at concrete inputs. -/
theorem claim7_temporal_detector_witness :
    detect_temporal_drift [histRecord1] temporalIntent = .ok [] ∧
    [temporalWitnessDrift] =
      temporalDriftSpec [histRecord1, histRecord2] temporalIntent := by
  constructor
  · exact claim7_temporal_detector.1 [histRecord1] temporalIntent (by simp)
  · refine claim7_temporal_detector.2 [histRecord1, histRecord2] temporalIntent
      [temporalWitnessDrift] ?_
    have hs : calculate_severity 15 10 "temporal_consistency" = .ok .high := by
      rw [calculate_severity, if_neg (by norm_num : ¬(10:ℚ) = 0), deviationOf, if_neg]
      · rw [severityBand, if_pos (by norm_num : ((15:ℚ) - 10) / 10 * 100 > 30)]
      · simp
    simp [detect_temporal_drift, temporalIntent, histRecord1, histRecord2,
      temporalLoop, temporalRecords, Record.get, Record.getItem, monthOf, hs,
      List.lookup, temporalWitnessDrift, (by norm_num : (10:ℚ) < 15),
      Bind.bind, Except.bind]

/-- C7 counterexample: with a `temporal_consistency` threshold of 0 and
a violating value in a 2-record history, the detector raises
`ZeroDivisionError` instead of emitting the finding the claim
requires. -/
theorem claim7_counterexample :
    detect_temporal_drift [histRecord1, histRecord2] zeroThresholdIntent
      = .error .zeroDivisionError := by
  simp [detect_temporal_drift, zeroThresholdIntent, histRecord1, histRecord2,
    temporalLoop, temporalRecords, Record.get, Record.getItem, monthOf,
    List.lookup, calculate_severity, (by norm_num : (0:ℚ) < 15),
    Bind.bind, Except.bind]

/-- C8: the aggregator's output is exactly the concatenation, over
district groups in first-seen order, of each group's per-record metric
findings followed by its temporal findings; hence on success the output
length is the sum of the block lengths. -/
theorem claim8_aggregator (data : List Record) (intent : PolicyIntent) :
    detect_all_drift data intent = detectAllSpec data intent ∧
    (∀ (gs : List (Value × List Record)) (blocks : List (List DriftResult)),
      groupByDistrict data = .ok gs →
      gs.mapM (fun p => regionBlock p.2 intent) = .ok blocks →
      detect_all_drift data intent = .ok blocks.flatten ∧
      blocks.flatten.length = (blocks.map List.length).sum) := by
  refine ⟨detect_all_eq_spec data intent, ?_⟩
  intro gs blocks hg hbs
  constructor
  · rw [detect_all_eq_spec, detectAllSpec]
    simp only [hg, hbs, exc_bind_ok]
  · exact List.length_flatten blocks

/-- Witness for C8 at concrete inputs. -/
theorem claim8_aggregator_witness :
    detect_all_drift [numValueRecord] coverageIntent
      = .ok [[coverageDrift]].flatten ∧
    ([[coverageDrift]] : List (List DriftResult)).flatten.length =
      ([[coverageDrift]].map List.length).sum := by
  have h := (claim8_aggregator [numValueRecord] coverageIntent).2
    [(Value.str "D1", [numValueRecord])] [[coverageDrift]] groups_numValue
    (by rw [List.mapM_cons, List.mapM_nil, regionBlock_numValue]; rfl)
  exact h

/-- C9: `generate_summary` returns the fixed no-drift sentence on the
empty list (a distinct code path), and for every non-empty list of N
findings the rendered report's total line carries exactly N and the
high/medium/low severity counts sum to N. -/
theorem claim9_summary :
    generate_summary [] =
      "No policy drift detected. Implementation aligns with policy intent." ∧
    ∀ ds : List DriftResult, ds ≠ [] →
      generate_summary ds = String.intercalate "\n" (summaryLines ds) ∧
      ("Total drift instances detected: " ++ toString ds.length) ∈ summaryLines ds ∧
      severityCount ds .high + severityCount ds .medium + severityCount ds .low
        = ds.length := by
  constructor
  · rw [generate_summary, if_pos rfl]
  · intro ds h
    refine ⟨?_, ?_, severityCount_partition ds⟩
    · rw [generate_summary, if_neg h]
    · rw [summaryLines]
      simp

/-- Witness for C9 at a concrete finding list. -/
theorem claim9_summary_witness :
    generate_summary [exDrift] = String.intercalate "\n" (summaryLines [exDrift]) ∧
    ("Total drift instances detected: " ++ toString (1 : ℕ)) ∈ summaryLines [exDrift] ∧
    severityCount [exDrift] .high + severityCount [exDrift] .medium +
      severityCount [exDrift] .low = 1 := by
  have h := claim9_summary.2 [exDrift] (by simp)
  simpa using h

/-- C10: a record without `district_id` makes the aggregator fail with a
key-lookup error rather than being skipped, and in the src variant the
per-record detector never returns successfully-emitted findings for a
record lacking `district_name` (emission fails instead of substituting a
default). -/
theorem claim10_identity_fields :
    (∀ (data : List Record) (intent : PolicyIntent) (r : Record),
      r ∈ data → r.get "district_id" = none →
      detect_all_drift data intent = .error (.keyError "district_id")) ∧
    (∀ (r : Record) (intent : PolicyIntent) (month : Value),
      r.get "district_name" = none →
      ∀ ds, detect_metric_drift r intent month = .ok ds → ds = []) := by
  constructor
  · intro data intent r hr hn
    rw [detect_all_drift]
    simp only [groupByDistrict_err data r hr hn, exc_bind_err]
  · intro r intent month hn ds h
    exact detect_metric_ok_no_name r intent month hn ds h

/-- Witness for C10 at concrete inputs. -/
theorem claim10_identity_fields_witness :
    detect_all_drift [noIdRecord] coverageIntent = .error (.keyError "district_id") ∧
    ([] : List DriftResult) = [] := by
  constructor
  · exact claim10_identity_fields.1 [noIdRecord] coverageIntent noIdRecord
      (by simp) rfl
  · exact claim10_identity_fields.2 noNameRecord coverageIntent (.str "Jan") rfl []
      (by simp [detect_metric_drift, noNameRecord, coverageIntent, classify_district,
        classifyLoop, get_constraints_for_group, metricLoop, check_metric_constraint,
        Record.get, List.lookup, (by norm_num : ¬(90:ℚ) < 80), Bind.bind, Except.bind])

end PolicyDrift
